import Mathlib

/-
Shallow embedding of the demoware metrics server (Go, package main).

The pseudo-random source (Go math/rand) is modelled as an infinite stream
of natural numbers together with a cursor; each drawing primitive consumes
one stream element.  Go floating-point draws are modelled over ℚ: what the
claims use about them is only their range contract ([0,1) for Float32 and
Float64, [0,n) for Int31n), which the model realises by construction with
the same bit resolution as the Go functions.  A Go panic (rand.Int31n with
a non-positive bound) is modelled as Option.none.  exitWithError, which
terminates the process, is modelled as the fatal outcome of the startup
sequence.
-/

namespace Demoware

/-- The process-wide pseudo-random source of Go math/rand, modelled as an
infinite stream of naturals with a cursor. -/
structure RandState where
  stream : Nat → Nat
  pos : Nat

/-- Consume one value from the pseudo-random stream. -/
def randNext (s : RandState) : Nat × RandState :=
  (s.stream s.pos, { s with pos := s.pos + 1 })

/-- Go rand.Int31n(n): panics (none) if n ≤ 0, otherwise draws a value in
[0, n). -/
def randInt31n (n : Int) (s : RandState) : Option (Int × RandState) :=
  if n ≤ 0 then none
  else
    let p := randNext s
    some (((p.1 : Int)) % n, p.2)

/-- Go rand.Float64(): a value in [0,1) with 53-bit resolution. -/
def randFloat64 (s : RandState) : ℚ × RandState :=
  let p := randNext s
  (((p.1 % 2 ^ 53 : Nat) : ℚ) / ((2 ^ 53 : Nat) : ℚ), p.2)

/-- Go rand.Float32() = float32(rand.Float64()): a value in [0,1) with
24-bit resolution. -/
def randFloat32 (s : RandState) : ℚ × RandState :=
  let p := randNext s
  (((p.1 % 2 ^ 24 : Nat) : ℚ) / ((2 ^ 24 : Nat) : ℚ), p.2)

/-- The payload stored in a metricsEnvelope.  In Go the Payload field is an
untyped interface; nilPayload is its zero value. -/
inductive MetricPayload where
  | nilPayload : MetricPayload
  | loadAvg (value : ℚ) : MetricPayload
  | cpuUsage (value : List ℚ) : MetricPayload
  | lastKernelUpgrade (value : Nat) : MetricPayload
deriving DecidableEq

/-- Go struct metricsEnvelope: a type tag and a payload. -/
structure MetricsEnvelope where
  type : String
  payload : MetricPayload
deriving DecidableEq

/-- The for-loop in the cpu_usage branch: draw n successive Float32
values, threading the random state. -/
def genFloat32List : Nat → RandState → List ℚ × RandState
  | 0, s => ([], s)
  | n + 1, s =>
    let p := randFloat32 s
    let q := genFloat32List n p.2
    (p.1 :: q.1, q.2)

/-- The switch body of genMetricsHandler applied to a drawn tag t: build
one envelope.  The final branch is Go's implicit switch default, which
keeps the zero-valued envelope; it is unreachable since Int31n(3) yields
only 0, 1 or 2.  time.Now() is modelled by the parameter now. -/
def envelopeForTag (now : Nat) (t : Int) (s : RandState) : MetricsEnvelope × RandState :=
  if t = 0 then
    let p := randFloat32 s
    ({ type := "load_avg", payload := .loadAvg p.1 }, p.2)
  else if t = 1 then
    let q := genFloat32List 5 s
    ({ type := "cpu_usage", payload := .cpuUsage q.1 }, q.2)
  else if t = 2 then
    ({ type := "last_kernel_upgrade", payload := .lastKernelUpgrade now }, s)
  else
    ({ type := "", payload := .nilPayload }, s)

/-- One iteration of the generation loop of genMetricsHandler: draw
rand.Int31n(3) (none models its panic) and dispatch on the tag. -/
def genEnvelope (now : Nat) (s : RandState) : Option (MetricsEnvelope × RandState) :=
  (randInt31n 3 s).map fun p => envelopeForTag now p.1 p.2

/-- The generation loop of genMetricsHandler: build n envelopes,
threading the random state.  A panic in any iteration propagates. -/
def genEnvelopeList (now : Nat) : Nat → RandState → Option (List MetricsEnvelope × RandState)
  | 0, s => some ([], s)
  | n + 1, s =>
    (genEnvelope now s).bind fun p =>
      (genEnvelopeList now n p.2).map fun q => (p.1 :: q.1, q.2)

/-- The per-request generation step of genMetricsHandler:
numMetrics := rand.Int31n(maxMetrics-minMetrics) + minMetrics (none models
the Int31n panic on an empty range), then the loop filling metricsList. -/
def generateMetricsList (minMetrics maxMetrics : Int) (now : Nat) (s : RandState) :
    Option (List MetricsEnvelope × RandState) :=
  (randInt31n (maxMetrics - minMetrics) s).bind fun p =>
    genEnvelopeList now (p.1 + minMetrics).toNat p.2

/-- An HTTP response as the claims observe it: the status code, the list of
envelopes encoded into the body (empty on error responses), and whether the
innermost generator handler ran to produce it. -/
structure HttpResponse where
  status : Nat
  body : List MetricsEnvelope
  invokedGenerator : Bool
deriving DecidableEq

/-- An HTTP request as the handlers consume it: r.BasicAuth() yields the
username/password pair when the Basic header is present and well-formed. -/
structure Request where
  basicAuth : Option (String × String)
  path : String
deriving DecidableEq

/-- An http.Handler: consumes a request and the shared random source;
none models a panic inside the handler. -/
abbrev Handler := Request → RandState → Option (HttpResponse × RandState)

/-- The handler closure returned by genMetricsHandler: generate the
envelope list, then JSON-encode it.  The encoder is abstracted by the
predicate encodeOk (json.NewEncoder(w).Encode succeeds); on failure the
handler writes StatusInternalServerError. -/
def metricsHandler (minMetrics maxMetrics : Int) (now : Nat)
    (encodeOk : List MetricsEnvelope → Bool) : Handler :=
  fun _r s =>
    (generateMetricsList minMetrics maxMetrics now s).map fun p =>
      if encodeOk p.1 then ({ status := 200, body := p.1, invokedGenerator := true }, p.2)
      else ({ status := 500, body := [], invokedGenerator := true }, p.2)

/-- injectAuthMiddleware: 401 when Basic credentials are absent or the
username differs from the token; otherwise forward to the wrapped handler.
The password is bound to _ in the source and never examined. -/
def injectAuthMiddleware (h : Handler) (token : String) : Handler :=
  fun r s =>
    match r.basicAuth with
    | none => some ({ status := 401, body := [], invokedGenerator := false }, s)
    | some (user, _) =>
      if user ≠ token then some ({ status := 401, body := [], invokedGenerator := false }, s)
      else h r s

/-- The request-time behaviour of injectRandomErrorMiddleware: draw
u := rand.Float64(); if u ≤ prob respond 500, otherwise forward. -/
def injectRandomErrorMiddleware (h : Handler) (prob : ℚ) : Handler :=
  fun r s =>
    let u := (randFloat64 s).1
    let s1 := (randFloat64 s).2
    if u ≤ prob then some ({ status := 500, body := [], invokedGenerator := false }, s1)
    else h r s1

/-- The configuration snapshot taken from the CLI flags at startup.
Field names follow the flag names; listenTlsKey is the value of flag
"listen-tls-key" (the certificate path) and listenTlsPassword the value of
flag "listen-tls-password" (the key path). -/
structure Config where
  listenAddress : String
  listenTlsKey : String
  listenTlsPassword : String
  metricsEndpoint : String
  metricsMinCount : Int
  metricsMaxCount : Int
  withAuthToken : String
  withRandomErrorProb : ℚ

/-- cliCtx.String(name): the configured value for a defined string flag.
Modelled after urfave/cli: looking up a flag name that was never defined
yields the zero value "". -/
def cliString (cfg : Config) (name : String) : String :=
  if name = "listen-address" then cfg.listenAddress
  else if name = "listen-tls-key" then cfg.listenTlsKey
  else if name = "listen-tls-password" then cfg.listenTlsPassword
  else if name = "metrics-endpoint" then cfg.metricsEndpoint
  else if name = "with-auth-token" then cfg.withAuthToken
  else ""

/-- The TLS decision taken by startServer: it reads
tlsCertFile := cliCtx.String("listen-tls-key") and
tlsKeyFile := cliCtx.String("listen-tlk-password") — the flag-name strings
exactly as they appear in the source — and configures TLS when both are
non-empty. -/
def startServerUsesTLS (cfg : Config) : Bool :=
  let tlsCertFile := cliString cfg "listen-tls-key"
  let tlsKeyFile := cliString cfg "listen-tlk-password"
  tlsCertFile != "" && tlsKeyFile != ""

/-- registerMetricsHandler: build the generator handler (whose constructor
exits fatally when min-count > max-count), wrap it with the auth middleware
when the token is non-empty, then with the error-injection middleware when
the probability is non-zero (whose constructor exits fatally when the
probability lies outside [0,1]).  none models exitWithError, which
terminates the process. -/
def registerMetricsHandler (cfg : Config) (now : Nat)
    (encodeOk : List MetricsEnvelope → Bool) : Option Handler :=
  if cfg.metricsMinCount > cfg.metricsMaxCount then none
  else
    let h0 := metricsHandler cfg.metricsMinCount cfg.metricsMaxCount now encodeOk
    let h1 := if cfg.withAuthToken = "" then h0 else injectAuthMiddleware h0 cfg.withAuthToken
    if cfg.withRandomErrorProb = 0 then some h1
    else if cfg.withRandomErrorProb < 0 ∨ cfg.withRandomErrorProb > 1 then none
    else some (injectRandomErrorMiddleware h1 cfg.withRandomErrorProb)

/-- The observable outcome of demowareApp's startup sequence: either the
process exits fatally during handler registration, before any listener is
bound, or it reaches startServer and listens (plain or TLS). -/
inductive StartupResult where
  | fatal : StartupResult
  | listening (usesTLS : Bool) (h : Handler) : StartupResult

/-- demowareApp: register the metrics handler (fatal configuration errors
exit here), then bind the listener in startServer.  Bind and certificate
I/O failures are outside the model; what matters to the claims is that
registration runs strictly before the listener is bound. -/
def demowareApp (cfg : Config) (now : Nat)
    (encodeOk : List MetricsEnvelope → Bool) : StartupResult :=
  match registerMetricsHandler cfg now encodeOk with
  | none => .fatal
  | some h => .listening (startServerUsesTLS cfg) h

/-- The envelope invariant of the spec: the type tag is one of the three
known kinds and the payload shape matches the tag, with float values in
[0,1) and exactly 5 of them for cpu_usage. -/
def validEnvelope (e : MetricsEnvelope) : Prop :=
  (e.type = "load_avg" ∧ ∃ v, e.payload = .loadAvg v ∧ 0 ≤ v ∧ v < 1) ∨
  (e.type = "cpu_usage" ∧
    ∃ vs, e.payload = .cpuUsage vs ∧ vs.length = 5 ∧ ∀ v ∈ vs, 0 ≤ v ∧ v < 1) ∨
  (e.type = "last_kernel_upgrade" ∧ ∃ t, e.payload = .lastKernelUpgrade t)

/-- A concrete random source for witnesses: the all-zero stream. -/
def zeroStream : RandState := { stream := fun _ => 0, pos := 0 }

/-- A concrete random source for witnesses: the all-one stream. -/
def oneStream : RandState := { stream := fun _ => 1, pos := 0 }

/-- A concrete unauthenticated request for witnesses. -/
def sampleRequest : Request := { basicAuth := none, path := "/metrics" }

/-- A concrete always-succeeding encoder for witnesses. -/
def alwaysEncode : List MetricsEnvelope → Bool := fun _ => true

/-- With a positive bound, rand.Int31n draws the next stream element
reduced modulo the bound. -/
theorem randInt31n_eq_of_pos (n : Int) (hn : 0 < n) (s : RandState) :
    randInt31n n s =
      some (((s.stream s.pos : Int)) % n, { s with pos := s.pos + 1 }) := by
  simp [randInt31n, randNext, not_le.mpr hn]

/-- The value drawn by rand.Int31n with a positive bound lies in [0, n). -/
theorem randInt31n_bounds (n : Int) (hn : 0 < n) (s : RandState) :
    0 ≤ ((s.stream s.pos : Int)) % n ∧ ((s.stream s.pos : Int)) % n < n :=
  ⟨Int.emod_nonneg _ (ne_of_gt hn), Int.emod_lt_of_pos _ hn⟩

/-- rand.Float64 always yields a value in [0, 1). -/
theorem randFloat64_range (s : RandState) :
    0 ≤ (randFloat64 s).1 ∧ (randFloat64 s).1 < 1 := by
  unfold randFloat64 randNext
  refine ⟨div_nonneg (Nat.cast_nonneg _) (Nat.cast_nonneg _), ?_⟩
  rw [div_lt_one (by positivity)]
  exact_mod_cast Nat.mod_lt _ (by norm_num)

/-- rand.Float32 always yields a value in [0, 1). -/
theorem randFloat32_range (s : RandState) :
    0 ≤ (randFloat32 s).1 ∧ (randFloat32 s).1 < 1 := by
  unfold randFloat32 randNext
  refine ⟨div_nonneg (Nat.cast_nonneg _) (Nat.cast_nonneg _), ?_⟩
  rw [div_lt_one (by positivity)]
  exact_mod_cast Nat.mod_lt _ (by norm_num)

/-- The cpu_usage loop yields exactly n values, all in [0, 1). -/
theorem genFloat32List_spec (n : Nat) (s : RandState) :
    (genFloat32List n s).1.length = n ∧
      ∀ v ∈ (genFloat32List n s).1, 0 ≤ v ∧ v < 1 := by
  induction n generalizing s with
  | zero => simp [genFloat32List]
  | succ n ih =>
    simp only [genFloat32List]
    refine ⟨by simp [(ih _).1], ?_⟩
    intro v hv
    rcases List.mem_cons.mp hv with h | h
    · exact h ▸ randFloat32_range s
    · exact (ih _).2 v h

/-- Every envelope the switch builds from a tag in [0, 3) satisfies the
envelope invariant. -/
theorem envelopeForTag_valid (now : Nat) (t : Int) (s : RandState)
    (h0 : 0 ≤ t) (h3 : t < 3) : validEnvelope (envelopeForTag now t s).1 := by
  unfold envelopeForTag
  by_cases ht0 : t = 0
  · rw [if_pos ht0]
    exact Or.inl ⟨rfl, (randFloat32 s).1, rfl, randFloat32_range s⟩
  · rw [if_neg ht0]
    by_cases ht1 : t = 1
    · rw [if_pos ht1]
      exact Or.inr (Or.inl ⟨rfl, (genFloat32List 5 s).1, rfl,
        (genFloat32List_spec 5 s).1, (genFloat32List_spec 5 s).2⟩)
    · rw [if_neg ht1]
      have ht2 : t = 2 := by omega
      rw [if_pos ht2]
      exact Or.inr (Or.inr ⟨rfl, now, rfl⟩)

/-- One generation step always succeeds: the tag draw has the positive
bound 3. -/
theorem genEnvelope_eq (now : Nat) (s : RandState) :
    genEnvelope now s =
      some (envelopeForTag now (((s.stream s.pos : Int)) % 3)
        { s with pos := s.pos + 1 }) := by
  unfold genEnvelope
  rw [randInt31n_eq_of_pos 3 (by norm_num) s, Option.map_some']

/-- The generation loop always succeeds and yields exactly n envelopes,
all satisfying the envelope invariant. -/
theorem genEnvelopeList_spec (now : Nat) (n : Nat) (s : RandState) :
    ∃ l s1, genEnvelopeList now n s = some (l, s1) ∧
      l.length = n ∧ ∀ e ∈ l, validEnvelope e := by
  induction n generalizing s with
  | zero => exact ⟨[], s, rfl, rfl, by simp⟩
  | succ n ih =>
    obtain ⟨l, s1, hl, hlen, hval⟩ :=
      ih (envelopeForTag now (((s.stream s.pos : Int)) % 3) { s with pos := s.pos + 1 }).2
    refine ⟨(envelopeForTag now (((s.stream s.pos : Int)) % 3)
      { s with pos := s.pos + 1 }).1 :: l, s1, ?_, by simp [hlen], ?_⟩
    · rw [genEnvelopeList, genEnvelope_eq, Option.some_bind, hl, Option.map_some']
    · intro e he
      rcases List.mem_cons.mp he with h | h
      · exact h ▸ envelopeForTag_valid now _ _
          (randInt31n_bounds 3 (by norm_num) s).1 (randInt31n_bounds 3 (by norm_num) s).2
      · exact hval e h

/-- A successful run of the generation loop yields exactly n envelopes,
all satisfying the envelope invariant. -/
theorem genEnvelopeList_sound (now : Nat) (n : Nat) (s : RandState)
    (l : List MetricsEnvelope) (s1 : RandState)
    (h : genEnvelopeList now n s = some (l, s1)) :
    l.length = n ∧ ∀ e ∈ l, validEnvelope e := by
  obtain ⟨l', s1', hl', hlen, hval⟩ := genEnvelopeList_spec now n s
  rw [hl'] at h
  cases h
  exact ⟨hlen, hval⟩

/-- When min-count < max-count, the per-request generation step draws the
next stream element modulo the range width. -/
theorem generateMetricsList_eq (minMetrics maxMetrics : Int)
    (h : minMetrics < maxMetrics) (now : Nat) (s : RandState) :
    generateMetricsList minMetrics maxMetrics now s =
      genEnvelopeList now
        ((((s.stream s.pos : Int)) % (maxMetrics - minMetrics) + minMetrics).toNat)
        { s with pos := s.pos + 1 } := by
  unfold generateMetricsList
  rw [randInt31n_eq_of_pos _ (by omega) s, Option.some_bind]

/-- A response produced by the generator handler always has its
invoked-generator flag set. -/
theorem metricsHandler_invoked (minMetrics maxMetrics : Int) (now : Nat)
    (encodeOk : List MetricsEnvelope → Bool) (r : Request) (s : RandState)
    (res : HttpResponse) (s1 : RandState)
    (h : metricsHandler minMetrics maxMetrics now encodeOk r s = some (res, s1)) :
    res.invokedGenerator = true := by
  unfold metricsHandler at h
  obtain ⟨p, _, hf⟩ := Option.map_eq_some'.mp h
  by_cases he : encodeOk p.1
  · rw [if_pos he] at hf
    cases hf
    rfl
  · rw [if_neg he] at hf
    cases hf
    rfl

/-- The generator handler on a successful generation run: encode the list
(200) or fail serialization (500). -/
theorem metricsHandler_eq (minMetrics maxMetrics : Int) (now : Nat)
    (encodeOk : List MetricsEnvelope → Bool) (r : Request) (s : RandState)
    (l : List MetricsEnvelope) (s1 : RandState)
    (h : generateMetricsList minMetrics maxMetrics now s = some (l, s1)) :
    metricsHandler minMetrics maxMetrics now encodeOk r s =
      (if encodeOk l
        then some ({ status := 200, body := l, invokedGenerator := true }, s1)
        else some ({ status := 500, body := [], invokedGenerator := true }, s1)) := by
  unfold metricsHandler
  rw [h, Option.map_some']
  by_cases he : encodeOk l
  · rw [if_pos he, if_pos he]
  · rw [if_neg he, if_neg he]

/-- The auth middleware on a request without Basic credentials. -/
theorem injectAuthMiddleware_none (h : Handler) (token : String) (r : Request)
    (s : RandState) (hr : r.basicAuth = none) :
    injectAuthMiddleware h token r s =
      some ({ status := 401, body := [], invokedGenerator := false }, s) := by
  unfold injectAuthMiddleware
  rw [hr]

/-- The auth middleware on a request with Basic credentials. -/
theorem injectAuthMiddleware_some (h : Handler) (token : String) (r : Request)
    (s : RandState) (user pass : String) (hr : r.basicAuth = some (user, pass)) :
    injectAuthMiddleware h token r s =
      (if user ≠ token
        then some ({ status := 401, body := [], invokedGenerator := false }, s)
        else h r s) := by
  unfold injectAuthMiddleware
  rw [hr]

/-- The flag name read by startServer for the TLS key, "listen-tlk-password",
matches none of the flags the application defines, so the lookup always
yields the zero value. -/
theorem cliString_tlk_password (cfg : Config) :
    cliString cfg "listen-tlk-password" = "" := by
  unfold cliString
  rw [if_neg (by decide), if_neg (by decide), if_neg (by decide),
    if_neg (by decide), if_neg (by decide)]

/-- A configuration supplying both TLS paths. -/
def tlsSampleConfig : Config :=
  { listenAddress := ":8080", listenTlsKey := "server.crt",
    listenTlsPassword := "server.key", metricsEndpoint := "/metrics",
    metricsMinCount := 0, metricsMaxCount := 10,
    withAuthToken := "", withRandomErrorProb := 0 }

/-- A configuration with min-count > max-count. -/
def badCountConfig : Config :=
  { listenAddress := ":8080", listenTlsKey := "", listenTlsPassword := "",
    metricsEndpoint := "/metrics", metricsMinCount := 3, metricsMaxCount := 1,
    withAuthToken := "", withRandomErrorProb := 0 }

/-- A configuration enabling both auth and error injection. -/
def authErrConfig : Config :=
  { listenAddress := ":8080", listenTlsKey := "", listenTlsPassword := "",
    metricsEndpoint := "/metrics", metricsMinCount := 0, metricsMaxCount := 10,
    withAuthToken := "deadbeef", withRandomErrorProb := 1 / 2 }

/-- C1: the claim says that with minCount = maxCount the metrics handler
returns exactly minCount envelopes and the draw over the empty range does
not fail.  The code instead calls rand.Int31n(maxMetrics - minMetrics)
with a zero argument, which panics: at minCount = maxCount = 2 both the
generation step and the whole handler abort (modelled by none) instead of
producing 2 envelopes. -/
theorem minEqMax_draw_panics :
    generateMetricsList 2 2 0 zeroStream = none ∧
    metricsHandler 2 2 0 alwaysEncode sampleRequest zeroStream = none :=
  ⟨rfl, rfl⟩

/-- C2: the claim says TLS is served exactly when both TLS paths are
non-empty.  startServer reads the key path from the misspelled flag name
"listen-tlk-password", which is never defined, so its value is always
empty and the TLS branch never activates: even with both paths supplied
(tlsSampleConfig) the server serves plain TCP, and in fact no
configuration whatsoever enables TLS. -/
theorem tls_config_never_activates :
    (tlsSampleConfig.listenTlsKey ≠ "" ∧ tlsSampleConfig.listenTlsPassword ≠ "" ∧
      startServerUsesTLS tlsSampleConfig = false) ∧
    ∀ cfg : Config, startServerUsesTLS cfg = false := by
  constructor
  · exact ⟨by decide, by decide, by decide⟩
  · intro cfg
    show (cliString cfg "listen-tls-key" != "" &&
      cliString cfg "listen-tlk-password" != "") = false
    rw [cliString_tlk_password]
    simp

/-- C3: for every configuration with 0 ≤ minCount < maxCount and every
random draw, the generation step succeeds and the envelope list it
produces — the list the handler encodes into the response — has a length N
with minCount ≤ N ≤ maxCount. -/
theorem metricsCount_between_min_and_max (minMetrics maxMetrics : Int)
    (hmin : 0 ≤ minMetrics) (hlt : minMetrics < maxMetrics) (now : Nat)
    (encodeOk : List MetricsEnvelope → Bool) (r : Request) (s : RandState) :
    ∃ l s1, generateMetricsList minMetrics maxMetrics now s = some (l, s1) ∧
      minMetrics ≤ (l.length : Int) ∧ (l.length : Int) ≤ maxMetrics ∧
      metricsHandler minMetrics maxMetrics now encodeOk r s =
        (if encodeOk l
          then some ({ status := 200, body := l, invokedGenerator := true }, s1)
          else some ({ status := 500, body := [], invokedGenerator := true }, s1)) := by
  obtain ⟨l, s1, hl, hlen, _⟩ := genEnvelopeList_spec now
    ((((s.stream s.pos : Int)) % (maxMetrics - minMetrics) + minMetrics).toNat)
    { s with pos := s.pos + 1 }
  have hg : generateMetricsList minMetrics maxMetrics now s = some (l, s1) := by
    rw [generateMetricsList_eq minMetrics maxMetrics hlt now s, hl]
  obtain ⟨hb0, hb1⟩ := randInt31n_bounds (maxMetrics - minMetrics) (by omega) s
  refine ⟨l, s1, hg, ?_, ?_, metricsHandler_eq _ _ _ _ _ _ _ _ hg⟩
  · rw [hlen]; omega
  · rw [hlen]; omega

/-- Witness for C3 at (minCount, maxCount) = (0, 10) on the all-zero
stream. -/
theorem metricsCount_between_min_and_max_witness :
    ∃ l s1, generateMetricsList 0 10 0 zeroStream = some (l, s1) ∧
      (0 : Int) ≤ (l.length : Int) ∧ (l.length : Int) ≤ 10 ∧
      metricsHandler 0 10 0 alwaysEncode sampleRequest zeroStream =
        (if alwaysEncode l
          then some ({ status := 200, body := l, invokedGenerator := true }, s1)
          else some ({ status := 500, body := [], invokedGenerator := true }, s1)) :=
  metricsCount_between_min_and_max 0 10 (by decide) (by decide) 0
    alwaysEncode sampleRequest zeroStream

/-- C4: with auth enabled, the auth middleware responds 401 without
invoking the wrapped handler exactly when Basic credentials are absent or
the supplied username differs from the token (the password is ignored),
and forwards the request unchanged when the username matches. -/
theorem authMiddleware_behavior (token : String) (htok : token ≠ "")
    (h : Handler) (r : Request) (s : RandState) :
    (r.basicAuth = none →
      injectAuthMiddleware h token r s =
        some ({ status := 401, body := [], invokedGenerator := false }, s)) ∧
    (∀ user pass, r.basicAuth = some (user, pass) → user ≠ token →
      injectAuthMiddleware h token r s =
        some ({ status := 401, body := [], invokedGenerator := false }, s)) ∧
    (∀ user pass, r.basicAuth = some (user, pass) → user = token →
      injectAuthMiddleware h token r s = h r s) := by
  refine ⟨fun hr => injectAuthMiddleware_none h token r s hr, ?_, ?_⟩
  · intro user pass hr hne
    rw [injectAuthMiddleware_some h token r s user pass hr, if_pos hne]
  · intro user pass hr heq
    rw [injectAuthMiddleware_some h token r s user pass hr,
      if_neg (fun hc => hc heq)]

/-- Witness for C4: a request without credentials against token
"deadbeef" gets 401. -/
theorem authMiddleware_behavior_witness :
    injectAuthMiddleware (metricsHandler 0 10 0 alwaysEncode) "deadbeef"
        sampleRequest zeroStream =
      some ({ status := 401, body := [], invokedGenerator := false }, zeroStream) :=
  (authMiddleware_behavior "deadbeef" (by decide)
    (metricsHandler 0 10 0 alwaysEncode) sampleRequest zeroStream).1 rfl

/-- C5: the fault-injection middleware with probability p responds 500
without invoking the wrapped handler exactly when the drawn u satisfies
u ≤ p and forwards otherwise; with p = 1 every request yields 500; with a
configured probability of 0 the middleware is never installed, so no
request yields a 500 due to injection (every 500 of the registered
pipeline comes from the generator's serialization step). -/
theorem errorMiddleware_behavior (p : ℚ) (hp0 : 0 ≤ p) (hp1 : p ≤ 1) :
    (∀ (h : Handler) (r : Request) (s : RandState), (randFloat64 s).1 ≤ p →
      injectRandomErrorMiddleware h p r s =
        some ({ status := 500, body := [], invokedGenerator := false },
          (randFloat64 s).2)) ∧
    (∀ (h : Handler) (r : Request) (s : RandState), ¬ (randFloat64 s).1 ≤ p →
      injectRandomErrorMiddleware h p r s = h r (randFloat64 s).2) ∧
    (p = 1 → ∀ (h : Handler) (r : Request) (s : RandState),
      injectRandomErrorMiddleware h p r s =
        some ({ status := 500, body := [], invokedGenerator := false },
          (randFloat64 s).2)) ∧
    (∀ (cfg : Config) (now : Nat) (encodeOk : List MetricsEnvelope → Bool),
      cfg.withRandomErrorProb = 0 →
      cfg.metricsMinCount ≤ cfg.metricsMaxCount →
      ∃ hh, registerMetricsHandler cfg now encodeOk = some hh ∧
        ∀ r s res s1, hh r s = some (res, s1) → res.status = 500 →
          res.invokedGenerator = true) := by
  refine ⟨?_, ?_, ?_, ?_⟩
  · intro h r s hu
    simp only [injectRandomErrorMiddleware]
    rw [if_pos hu]
  · intro h r s hu
    simp only [injectRandomErrorMiddleware]
    rw [if_neg hu]
  · intro hp h r s
    subst hp
    simp only [injectRandomErrorMiddleware]
    rw [if_pos (le_of_lt (randFloat64_range s).2)]
  · intro cfg now encodeOk hprob hle
    have hgt : ¬ cfg.metricsMinCount > cfg.metricsMaxCount := not_lt.mpr hle
    by_cases htok : cfg.withAuthToken = ""
    · refine ⟨metricsHandler cfg.metricsMinCount cfg.metricsMaxCount now encodeOk,
        ?_, ?_⟩
      · simp [registerMetricsHandler, hgt, htok, hprob]
      · intro r s res s1 hres _
        exact metricsHandler_invoked _ _ _ _ _ _ _ _ hres
    · refine ⟨injectAuthMiddleware
        (metricsHandler cfg.metricsMinCount cfg.metricsMaxCount now encodeOk)
        cfg.withAuthToken, ?_, ?_⟩
      · simp [registerMetricsHandler, hgt, htok, hprob]
      · intro r s res s1 hres h500
        cases hba : r.basicAuth with
        | none =>
          rw [injectAuthMiddleware_none _ _ _ _ hba] at hres
          injection hres with hpair
          injection hpair with hres1 _
          rw [← hres1] at h500
          simp at h500
        | some up =>
          rw [injectAuthMiddleware_some _ _ _ _ up.1 up.2 (by rw [hba])] at hres
          by_cases hne : up.1 ≠ cfg.withAuthToken
          · rw [if_pos hne] at hres
            injection hres with hpair
            injection hpair with hres1 _
            rw [← hres1] at h500
            simp at h500
          · rw [if_neg hne] at hres
            exact metricsHandler_invoked _ _ _ _ _ _ _ _ hres

/-- Witness for C5 at p = 1/2 on the all-zero stream: the draw 0 ≤ 1/2
fires the injection. -/
theorem errorMiddleware_behavior_witness :
    injectRandomErrorMiddleware (metricsHandler 0 10 0 alwaysEncode) (1 / 2)
        sampleRequest zeroStream =
      some ({ status := 500, body := [], invokedGenerator := false },
        (randFloat64 zeroStream).2) :=
  (errorMiddleware_behavior (1 / 2) (by norm_num) (by norm_num)).1
    (metricsHandler 0 10 0 alwaysEncode) sampleRequest zeroStream
    (by norm_num [randFloat64, randNext, zeroStream])

/-- C6: when generation succeeds, the metrics handler responds 500 on
serialization failure and otherwise encodes the envelope list as the
response body with the implicit 200 status. -/
theorem serialization_status_codes (minMetrics maxMetrics : Int) (now : Nat)
    (encodeOk : List MetricsEnvelope → Bool) (r : Request) (s : RandState)
    (l : List MetricsEnvelope) (s1 : RandState)
    (h : generateMetricsList minMetrics maxMetrics now s = some (l, s1)) :
    (encodeOk l = false →
      metricsHandler minMetrics maxMetrics now encodeOk r s =
        some ({ status := 500, body := [], invokedGenerator := true }, s1)) ∧
    (encodeOk l = true →
      metricsHandler minMetrics maxMetrics now encodeOk r s =
        some ({ status := 200, body := l, invokedGenerator := true }, s1)) := by
  constructor
  · intro he
    rw [metricsHandler_eq _ _ _ _ r _ _ _ h, if_neg (by simp [he])]
  · intro he
    rw [metricsHandler_eq _ _ _ _ r _ _ _ h, if_pos he]

/-- Witness for C6 on the all-zero stream: generation succeeds with an
empty list, encoding succeeds, the response is 200. -/
theorem serialization_status_codes_witness :
    metricsHandler 0 10 0 alwaysEncode sampleRequest zeroStream =
      some ({ status := 200, body := [], invokedGenerator := true },
        { stream := zeroStream.stream, pos := 1 }) :=
  (serialization_status_codes 0 10 0 alwaysEncode sampleRequest zeroStream []
    { stream := zeroStream.stream, pos := 1 } rfl).2 rfl

/-- C7: a configuration with min-count > max-count, or with a non-zero
error probability outside [0,1], makes startup exit fatally during handler
registration, before the listener is bound: demowareApp never reaches the
listening state. -/
theorem invalid_config_fatal_before_listen (cfg : Config) (now : Nat)
    (encodeOk : List MetricsEnvelope → Bool)
    (h : cfg.metricsMinCount > cfg.metricsMaxCount ∨
      (cfg.withRandomErrorProb ≠ 0 ∧
        (cfg.withRandomErrorProb < 0 ∨ cfg.withRandomErrorProb > 1))) :
    demowareApp cfg now encodeOk = .fatal ∧
    ∀ b hh, demowareApp cfg now encodeOk ≠ .listening b hh := by
  have hfatal : demowareApp cfg now encodeOk = .fatal := by
    unfold demowareApp registerMetricsHandler
    rcases h with h | ⟨hne, hout⟩
    · rw [if_pos h]
    · by_cases hgt : cfg.metricsMinCount > cfg.metricsMaxCount
      · rw [if_pos hgt]
      · rw [if_neg hgt, if_neg hne, if_pos hout]
  refine ⟨hfatal, fun b hh hcontra => ?_⟩
  rw [hfatal] at hcontra
  exact StartupResult.noConfusion hcontra

/-- Witness for C7: min-count 3 > max-count 1 exits fatally. -/
theorem invalid_config_fatal_before_listen_witness :
    demowareApp badCountConfig 0 alwaysEncode = .fatal ∧
    ∀ b hh, demowareApp badCountConfig 0 alwaysEncode ≠ .listening b hh :=
  invalid_config_fatal_before_listen badCountConfig 0 alwaysEncode
    (Or.inl (by decide))

/-- C8: with both middlewares enabled, the registered pipeline is the
error-injection middleware outermost around the auth middleware around the
generator; when the injection fires the result is 500 and is independent
of the wrapped handler (neither auth nor generator runs), and when auth
fails the result is 401 independent of the wrapped generator. -/
theorem pipeline_composition_order (cfg : Config) (now : Nat)
    (encodeOk : List MetricsEnvelope → Bool)
    (hle : cfg.metricsMinCount ≤ cfg.metricsMaxCount)
    (htok : cfg.withAuthToken ≠ "") (hpne : cfg.withRandomErrorProb ≠ 0)
    (hp0 : 0 ≤ cfg.withRandomErrorProb) (hp1 : cfg.withRandomErrorProb ≤ 1) :
    registerMetricsHandler cfg now encodeOk =
      some (injectRandomErrorMiddleware
        (injectAuthMiddleware
          (metricsHandler cfg.metricsMinCount cfg.metricsMaxCount now encodeOk)
          cfg.withAuthToken)
        cfg.withRandomErrorProb) ∧
    (∀ (h1 h2 : Handler) (r : Request) (s : RandState),
      (randFloat64 s).1 ≤ cfg.withRandomErrorProb →
      injectRandomErrorMiddleware h1 cfg.withRandomErrorProb r s =
        some ({ status := 500, body := [], invokedGenerator := false },
          (randFloat64 s).2) ∧
      injectRandomErrorMiddleware h1 cfg.withRandomErrorProb r s =
        injectRandomErrorMiddleware h2 cfg.withRandomErrorProb r s) ∧
    (∀ (h : Handler) (r : Request) (s : RandState) (user pass : String),
      r.basicAuth = none ∨
        (r.basicAuth = some (user, pass) ∧ user ≠ cfg.withAuthToken) →
      injectAuthMiddleware h cfg.withAuthToken r s =
        some ({ status := 401, body := [], invokedGenerator := false }, s)) := by
  have hgt : ¬ cfg.metricsMinCount > cfg.metricsMaxCount := not_lt.mpr hle
  have hor : ¬ (cfg.withRandomErrorProb < 0 ∨ cfg.withRandomErrorProb > 1) :=
    not_or.mpr ⟨not_lt.mpr hp0, not_lt.mpr hp1⟩
  refine ⟨?_, ?_, ?_⟩
  · simp [registerMetricsHandler, hgt, htok, hpne, hor]
  · intro h1 h2 r s hu
    constructor
    · simp only [injectRandomErrorMiddleware]
      rw [if_pos hu]
    · simp only [injectRandomErrorMiddleware]
      rw [if_pos hu, if_pos hu]
  · intro h r s user pass hfail
    rcases hfail with hnone | ⟨hsome, hne⟩
    · exact injectAuthMiddleware_none h _ r s hnone
    · rw [injectAuthMiddleware_some h _ r s user pass hsome, if_pos hne]

/-- Witness for C8 on a configuration with token "deadbeef" and
probability 1/2. -/
theorem pipeline_composition_order_witness :
    registerMetricsHandler authErrConfig 0 alwaysEncode =
      some (injectRandomErrorMiddleware
        (injectAuthMiddleware (metricsHandler 0 10 0 alwaysEncode) "deadbeef")
        (1 / 2)) :=
  (pipeline_composition_order authErrConfig 0 alwaysEncode (by decide)
    (by decide) (by norm_num [authErrConfig]) (by norm_num [authErrConfig])
    (by norm_num [authErrConfig])).1

/-- C9: every envelope in a successfully generated list has one of the
three known type tags with a payload of the matching shape: one float in
[0,1) for load_avg, exactly 5 floats in [0,1) for cpu_usage, a timestamp
for last_kernel_upgrade. -/
theorem envelopes_wellformed (minMetrics maxMetrics : Int) (now : Nat)
    (s : RandState) (l : List MetricsEnvelope) (s1 : RandState)
    (h : generateMetricsList minMetrics maxMetrics now s = some (l, s1)) :
    ∀ e ∈ l, validEnvelope e := by
  unfold generateMetricsList at h
  obtain ⟨p, _, hgen⟩ := Option.bind_eq_some.mp h
  exact (genEnvelopeList_sound now _ _ _ _ hgen).2

/-- The Float32 value drawn from a stream of ones. -/
def oneDraw : ℚ := ((1 % 2 ^ 24 : Nat) : ℚ) / ((2 ^ 24 : Nat) : ℚ)

/-- The cpu_usage envelope generated from the all-one stream. -/
def cpuEnvelopeSample : MetricsEnvelope :=
  { type := "cpu_usage",
    payload := .cpuUsage [oneDraw, oneDraw, oneDraw, oneDraw, oneDraw] }

/-- Witness for C9: the all-one stream generates one cpu_usage envelope,
and it is well-formed. -/
theorem envelopes_wellformed_witness :
    validEnvelope cpuEnvelopeSample :=
  envelopes_wellformed 0 10 0 oneStream [cpuEnvelopeSample]
    { stream := oneStream.stream, pos := 7 } rfl cpuEnvelopeSample
    (List.mem_singleton.mpr rfl)

/-- C10: for every configuration with 0 ≤ minCount < maxCount and every
random draw, the generated envelope count is strictly below maxCount: the
configured maximum is never attained. -/
theorem metricsCount_never_attains_max (minMetrics maxMetrics : Int)
    (hmin : 0 ≤ minMetrics) (hlt : minMetrics < maxMetrics) (now : Nat)
    (s : RandState) :
    ∃ l s1, generateMetricsList minMetrics maxMetrics now s = some (l, s1) ∧
      (l.length : Int) < maxMetrics := by
  obtain ⟨l, s1, hl, hlen, _⟩ := genEnvelopeList_spec now
    ((((s.stream s.pos : Int)) % (maxMetrics - minMetrics) + minMetrics).toNat)
    { s with pos := s.pos + 1 }
  have hg : generateMetricsList minMetrics maxMetrics now s = some (l, s1) := by
    rw [generateMetricsList_eq minMetrics maxMetrics hlt now s, hl]
  obtain ⟨hb0, hb1⟩ := randInt31n_bounds (maxMetrics - minMetrics) (by omega) s
  refine ⟨l, s1, hg, ?_⟩
  rw [hlen]; omega

/-- Witness for C10 at (minCount, maxCount) = (0, 10) on the all-zero
stream. -/
theorem metricsCount_never_attains_max_witness :
    ∃ l s1, generateMetricsList 0 10 0 zeroStream = some (l, s1) ∧
      (l.length : Int) < 10 :=
  metricsCount_never_attains_max 0 10 (by decide) (by decide) 0 zeroStream

end Demoware
